import Mathlib

/-!
Shallow embedding of src/library.py: a Library of Shelves of Books with
copy-count tracking.  Python dicts are modelled as insertion-ordered
association lists; the print-based error reporting of the source is
modelled as an explicit Signal value; Python ints are Lean Int.
-/

namespace LibraryModel

/-- The non-fatal conditions the source reports by printing a message;
success means the operation performed its state change (possibly printing
an informational line). -/
inductive Signal where
  | success
  | outOfStock
  | allCopiesPresent
  | duplicateShelf
  | notFound
deriving DecidableEq, Repr

/-- Lookup in an insertion-ordered association list (a Python dict whose
keys are strings). -/
def lookupKey {α : Type} : List (String × α) → String → Option α
  | [], _ => none
  | (k2, v) :: rest, k => if k2 = k then some v else lookupKey rest k

/-- In-place update of the value stored at a key, keeping its position:
models mutating the object held in a dict slot. -/
def updateAt {α : Type} : List (String × α) → String → (α → α) → List (String × α)
  | [], _, _ => []
  | (k2, v) :: rest, k, f =>
      if k2 = k then (k2, f v) :: rest else (k2, v) :: updateAt rest k f

/-- `Book.__init__(self, title, author="", page_count=0, desc="", copies=1)`:
`self._copies = self._maxcopies = copies`.  `copies` holds `_copies`
(available) and `maxcopies` holds `_maxcopies` (total). -/
structure Book where
  title : String
  author : String
  page_count : Int
  desc : String
  copies : Int
  maxcopies : Int
deriving DecidableEq, Repr

/-- The constructor: both copy counters start at the `copies` argument. -/
def Book.init (title : String) (author : String) (page_count : Int)
    (desc : String) (copies : Int) : Book :=
  { title := title, author := author, page_count := page_count,
    desc := desc, copies := copies, maxcopies := copies }

/-- `Book.add_copy`: `self._copies += 1; self._maxcopies += 1`. -/
def Book.add_copy (b : Book) : Book :=
  { b with copies := b.copies + 1, maxcopies := b.maxcopies + 1 }

/-- `Book.check_out`: `if self._copies:` (Python truthiness: nonzero)
decrement `_copies`; else print the out-of-stock message and change
nothing. -/
def Book.check_out (b : Book) : Book × Signal :=
  if b.copies ≠ 0 then ({ b with copies := b.copies - 1 }, Signal.success)
  else (b, Signal.outOfStock)

/-- `Book.check_in`: `if self._copies < self._maxcopies:` increment
`_copies`; else print the all-copies-present message and change
nothing. -/
def Book.check_in (b : Book) : Book × Signal :=
  if b.copies < b.maxcopies then ({ b with copies := b.copies + 1 }, Signal.success)
  else (b, Signal.allCopiesPresent)

/-- A mutating Book operation from the source, for stating the copy-count
invariant over arbitrary operation sequences. -/
inductive BookOp where
  | addCopy
  | checkOut
  | checkIn
deriving DecidableEq, Repr

/-- Apply one operation to a Book (the state part; the Signal is the
printed report, irrelevant to the stored state). -/
def Book.applyOp (b : Book) : BookOp → Book
  | BookOp.addCopy => b.add_copy
  | BookOp.checkOut => b.check_out.1
  | BookOp.checkIn => b.check_in.1

/-- Apply a sequence of operations left to right. -/
def Book.applyOps (b : Book) (ops : List BookOp) : Book :=
  ops.foldl Book.applyOp b

/-- The documented copy-count invariant. -/
def Book.invariant (b : Book) : Prop :=
  0 ≤ b.copies ∧ b.copies ≤ b.maxcopies

instance (b : Book) : Decidable b.invariant := by
  unfold Book.invariant; infer_instance

/-- Python `str.title()` on a list of characters: a letter following a
non-letter is uppercased, a letter following a letter is lowercased,
non-letters pass through (ASCII behaviour). -/
def pyTitleAux : List Char → Bool → List Char
  | [], _ => []
  | c :: rest, prevCased =>
      if c.isAlpha then
        (if prevCased then c.toLower else c.toUpper) :: pyTitleAux rest true
      else
        c :: pyTitleAux rest false

/-- Python `str.title()`. -/
def pyTitle (s : String) : String :=
  String.mk (pyTitleAux s.data false)

/-- `Shelf`: a name and an insertion-ordered dict from title to Book
(`self._books`). -/
structure Shelf where
  name : String
  books : List (String × Book)
deriving DecidableEq, Repr

/-- `Shelf.__init__(self, name="")`: empty book dict. -/
def Shelf.init (name : String) : Shelf :=
  { name := name, books := [] }

/-- An argument to `Shelf.add_books`: either a Book instance
(`isinstance(book, Book)` holds) or any other value, which the source
stringifies; the stringified form is the `label` string. -/
inductive BookItem where
  | book : Book → BookItem
  | label : String → BookItem
deriving DecidableEq, Repr

/-- The dict key the source computes for an item: `book.title` for a Book,
`str(book).title()` for anything else. -/
def BookItem.key : BookItem → String
  | BookItem.book b => b.title
  | BookItem.label l => pyTitle l

/-- The value the source would insert for an item: the Book itself, or
`Book(book_key)` built from the title-cased label with the default single
copy. -/
def BookItem.toAdd : BookItem → Book
  | BookItem.book b => b
  | BookItem.label l => Book.init (pyTitle l) "" 0 "" 1

/-- One iteration of the loop in `Shelf.add_books`: if the key is present,
call `add_copy` on the stored Book (in place); otherwise insert the new
Book at the end (dict insertion order). -/
def Shelf.addBook1 (s : Shelf) (item : BookItem) : Shelf :=
  if (lookupKey s.books item.key).isSome then
    { s with books := updateAt s.books item.key Book.add_copy }
  else
    { s with books := s.books ++ [(item.key, item.toAdd)] }

/-- `Shelf.add_books(*args)`: the loop over all arguments. -/
def Shelf.add_books (s : Shelf) (items : List BookItem) : Shelf :=
  items.foldl Shelf.addBook1 s

/-- A value used as a dict key at runtime: the public call sites pass a
title string, but `Book.unshelf` passes the Book object itself.  A Book
instance compares unequal to every string key (default Python object
equality against str), so only the `str` form can match. -/
inductive PyKey where
  | str : String → PyKey
  | obj : Book → PyKey
deriving DecidableEq, Repr

/-- Equality test of a runtime key value against a stored string key. -/
def pyKeyMatches (k : PyKey) (stored : String) : Bool :=
  match k with
  | PyKey.str t => t == stored
  | PyKey.obj _ => false

/-- `Shelf.remove_book(title)`: `if title in self._books: del ... else`
print the not-found message. -/
def Shelf.remove_book (s : Shelf) (k : PyKey) : Shelf × Signal :=
  if s.books.any (fun e => pyKeyMatches k e.1) then
    ({ s with books := s.books.filter (fun e => ¬ pyKeyMatches k e.1) }, Signal.success)
  else
    (s, Signal.notFound)

/-- The methods the source defines on class Shelf. -/
def shelfMethodNames : List String :=
  ["__init__", "__str__", "get_book", "add_books", "remove_book", "report_books"]

/-- `Book.enshelf(self, shelf)`: the body is `shelf.add_book(self)`.
Attribute lookup of the name `add_book` on the Shelf class: if the class
defined it the call would proceed (branch kept only for the dispatch
model); since it does not, Python raises AttributeError. -/
def Book.enshelf (b : Book) (s : Shelf) : Except String Shelf :=
  if shelfMethodNames.contains "add_book" then
    Except.ok (s.addBook1 (BookItem.book b))
  else
    Except.error "AttributeError: add_book"

/-- `Book.unshelf(self, shelf)`: the body is `shelf.remove_book(self)`,
passing the Book object itself as the key. -/
def Book.unshelf (b : Book) (s : Shelf) : Shelf × Signal :=
  s.remove_book (PyKey.obj b)

/-- `Library`: a name and an insertion-ordered dict from shelf name to
Shelf (`self._shelves`). -/
structure Library where
  name : String
  shelves : List (String × Shelf)
deriving DecidableEq, Repr

/-- `Library.__init__(self, name)`: empty shelf dict. -/
def Library.init (name : String) : Library :=
  { name := name, shelves := [] }

/-- An argument to `Library.add_shelves`: either a value with a `name`
attribute (the `try: shelf.name` branch) or any other value, stringified
into `label` (no title-casing here, unlike Shelf). -/
inductive ShelfItem where
  | shelf : Shelf → ShelfItem
  | label : String → ShelfItem
deriving DecidableEq, Repr

/-- The dict key the source computes for a shelf item. -/
def ShelfItem.key : ShelfItem → String
  | ShelfItem.shelf s => s.name
  | ShelfItem.label l => l

/-- The value the source would insert: the Shelf itself, or `Shelf(key)`. -/
def ShelfItem.toAdd : ShelfItem → Shelf
  | ShelfItem.shelf s => s
  | ShelfItem.label l => Shelf.init l

/-- One iteration of the loop in `Library.add_shelves`: `if shelf_key not
in self._shelves` insert, else print the duplicate-shelf message and
change nothing. -/
def Library.addShelf1 (lib : Library) (item : ShelfItem) : Library × Signal :=
  if ¬ (lookupKey lib.shelves item.key).isSome then
    ({ lib with shelves := lib.shelves ++ [(item.key, item.toAdd)] }, Signal.success)
  else
    (lib, Signal.duplicateShelf)

/-- `Library.add_shelves(*args)`: the loop over all arguments (signals of
the individual iterations are printed, not accumulated). -/
def Library.add_shelves (lib : Library) (items : List ShelfItem) : Library :=
  items.foldl (fun l item => (l.addShelf1 item).1) lib

/-! Helper lemmas on the association-list dict. -/

theorem lookupKey_updateAt_self {α : Type} (l : List (String × α)) (k : String)
    (f : α → α) (v : α) (h : lookupKey l k = some v) :
    lookupKey (updateAt l k f) k = some (f v) := by
  induction l with
  | nil => simp [lookupKey] at h
  | cons e rest ih =>
      obtain ⟨k2, w⟩ := e
      by_cases hk : k2 = k
      · subst hk
        simp [lookupKey] at h
        subst h
        simp [updateAt, lookupKey]
      · simp [lookupKey, hk] at h
        simp [updateAt, lookupKey, hk]
        exact ih h

theorem updateAt_length {α : Type} (l : List (String × α)) (k : String)
    (f : α → α) : (updateAt l k f).length = l.length := by
  induction l with
  | nil => rfl
  | cons e rest ih =>
      obtain ⟨k2, w⟩ := e
      by_cases hk : k2 = k
      · simp [updateAt, hk]
      · simp [updateAt, hk, ih]

theorem lookupKey_append_self {α : Type} (l : List (String × α)) (k : String)
    (v : α) (h : lookupKey l k = none) :
    lookupKey (l ++ [(k, v)]) k = some v := by
  induction l with
  | nil => simp [lookupKey]
  | cons e rest ih =>
      obtain ⟨k2, w⟩ := e
      by_cases hk : k2 = k
      · simp [lookupKey, hk] at h
      · simp [lookupKey, hk] at h ⊢
        exact ih h

/-- Each single operation preserves the copy-count invariant. -/
theorem invariant_applyOp (b : Book) (op : BookOp) (h : b.invariant) :
    (b.applyOp op).invariant := by
  obtain ⟨h1, h2⟩ := h
  cases op with
  | addCopy =>
      exact ⟨by simp [Book.applyOp, Book.add_copy]; omega,
             by simp [Book.applyOp, Book.add_copy]; omega⟩
  | checkOut =>
      simp only [Book.applyOp, Book.check_out]
      by_cases hc : b.copies ≠ 0
      · simp [hc, Book.invariant]; omega
      · simp [hc, Book.invariant]; omega
  | checkIn =>
      simp only [Book.applyOp, Book.check_in]
      by_cases hc : b.copies < b.maxcopies
      · simp [hc, Book.invariant]; omega
      · simp [hc, Book.invariant]; omega

/-- The invariant is preserved by any sequence of operations. -/
theorem invariant_applyOps (b : Book) (ops : List BookOp) (h : b.invariant) :
    (b.applyOps ops).invariant := by
  induction ops generalizing b with
  | nil => exact h
  | cons op rest ih => exact ih (b.applyOp op) (invariant_applyOp b op h)

/-- Claim C1: a Book created with `copies` at least 0 satisfies
`0 ≤ available_copies ≤ total_copies` after every sequence of `add_copy`,
`check_out` and `check_in` operations. -/
theorem book_ops_preserve_invariant (title author : String) (page_count : Int)
    (desc : String) (copies : Int) (h : 0 ≤ copies) (ops : List BookOp) :
    ((Book.init title author page_count desc copies).applyOps ops).invariant :=
  invariant_applyOps _ ops ⟨h, le_refl _⟩

/-- Witness for C1 at a concrete Book and operation sequence. -/
theorem book_ops_preserve_invariant_witness :
    (0 : Int) ≤ 2 ∧
      ((Book.init "A" "" 0 "" 2).applyOps
        [BookOp.checkOut, BookOp.checkIn, BookOp.addCopy]).invariant :=
  ⟨by decide,
   book_ops_preserve_invariant "A" "" 0 "" 2 (by decide)
     [BookOp.checkOut, BookOp.checkIn, BookOp.addCopy]⟩

/-- Claim C2: with zero available copies `check_out` changes nothing and
signals OutOfStock; with strictly positive available copies it decrements
the available count by one, keeps the total, and reports success. -/
theorem check_out_cases (b : Book) :
    (b.copies = 0 → b.check_out = (b, Signal.outOfStock)) ∧
    (0 < b.copies →
      b.check_out.1.copies = b.copies - 1 ∧
      b.check_out.1.maxcopies = b.maxcopies ∧
      b.check_out.2 = Signal.success) := by
  constructor
  · intro h
    simp [Book.check_out, h]
  · intro h
    have hne : b.copies ≠ 0 := by omega
    simp [Book.check_out, hne]

/-- Witness for C2: both branches at concrete Books. -/
theorem check_out_cases_witness :
    ((Book.init "A" "" 0 "" 0).check_out
        = (Book.init "A" "" 0 "" 0, Signal.outOfStock)) ∧
    ((Book.init "B" "" 0 "" 2).check_out.1.copies = 2 - 1 ∧
     (Book.init "B" "" 0 "" 2).check_out.1.maxcopies = 2 ∧
     (Book.init "B" "" 0 "" 2).check_out.2 = Signal.success) :=
  ⟨(check_out_cases (Book.init "A" "" 0 "" 0)).1 rfl,
   (check_out_cases (Book.init "B" "" 0 "" 2)).2 (by decide)⟩

/-- Claim C3: with available equal to total `check_in` changes nothing and
signals AllCopiesPresent; with available below total it increments the
available count by one, keeps the total, and reports success. -/
theorem check_in_cases (b : Book) :
    (b.copies = b.maxcopies → b.check_in = (b, Signal.allCopiesPresent)) ∧
    (b.copies < b.maxcopies →
      b.check_in.1.copies = b.copies + 1 ∧
      b.check_in.1.maxcopies = b.maxcopies ∧
      b.check_in.2 = Signal.success) := by
  constructor
  · intro h
    have hnlt : ¬ b.copies < b.maxcopies := by omega
    simp [Book.check_in, hnlt]
  · intro h
    simp [Book.check_in, h]

/-- Witness for C3: both branches at concrete Books. -/
theorem check_in_cases_witness :
    ((Book.init "A" "" 0 "" 1).check_in
        = (Book.init "A" "" 0 "" 1, Signal.allCopiesPresent)) ∧
    (((Book.init "B" "" 0 "" 2).check_out.1).check_in.1.copies = 1 + 1 ∧
     ((Book.init "B" "" 0 "" 2).check_out.1).check_in.1.maxcopies = 2 ∧
     ((Book.init "B" "" 0 "" 2).check_out.1).check_in.2 = Signal.success) :=
  ⟨(check_in_cases (Book.init "A" "" 0 "" 1)).1 rfl,
   (check_in_cases ((Book.init "B" "" 0 "" 2).check_out.1)).2 (by decide)⟩

/-- Claim C4: adding an item whose resulting title key is already on the
shelf bumps the stored Book's available and total counts by exactly one
and leaves the number of shelf entries unchanged. -/
theorem add_existing_title (s : Shelf) (item : BookItem) (b : Book)
    (h : lookupKey s.books item.key = some b) :
    (s.addBook1 item).books.length = s.books.length ∧
    lookupKey (s.addBook1 item).books item.key
      = some { b with copies := b.copies + 1, maxcopies := b.maxcopies + 1 } := by
  have hs : (lookupKey s.books item.key).isSome := by simp [h]
  constructor
  · simp [Shelf.addBook1, hs, updateAt_length]
  · simp only [Shelf.addBook1, hs, if_pos]
    exact lookupKey_updateAt_self s.books item.key Book.add_copy b h

/-- Witness for C4: re-adding the label of a Book already on the shelf. -/
theorem add_existing_title_witness :
    (lookupKey ((Shelf.init "Fantasy").addBook1 (BookItem.label "the scar")).books
        (BookItem.key (BookItem.label "the scar"))
      = some (Book.init "The Scar" "" 0 "" 1)) ∧
    ((((Shelf.init "Fantasy").addBook1 (BookItem.label "the scar")).addBook1
        (BookItem.label "the scar")).books.length
      = ((Shelf.init "Fantasy").addBook1 (BookItem.label "the scar")).books.length ∧
     lookupKey (((Shelf.init "Fantasy").addBook1 (BookItem.label "the scar")).addBook1
        (BookItem.label "the scar")).books (BookItem.key (BookItem.label "the scar"))
      = some { Book.init "The Scar" "" 0 "" 1 with
                 copies := (Book.init "The Scar" "" 0 "" 1).copies + 1,
                 maxcopies := (Book.init "The Scar" "" 0 "" 1).maxcopies + 1 }) :=
  ⟨by decide,
   add_existing_title ((Shelf.init "Fantasy").addBook1 (BookItem.label "the scar"))
     (BookItem.label "the scar") (Book.init "The Scar" "" 0 "" 1) (by decide)⟩

/-- Claim C5: adding an item whose resulting name key already exists leaves
the library completely unchanged (shelf count and the stored Shelf's
contents included) and signals DuplicateShelf. -/
theorem add_duplicate_shelf (lib : Library) (item : ShelfItem)
    (h : (lookupKey lib.shelves item.key).isSome) :
    lib.addShelf1 item = (lib, Signal.duplicateShelf) := by
  simp [Library.addShelf1, h]

/-- Witness for C5: adding the label of an existing shelf name. -/
theorem add_duplicate_shelf_witness :
    (lookupKey ((Library.init "BPL").addShelf1 (ShelfItem.label "Fantasy")).1.shelves
        (ShelfItem.key (ShelfItem.label "Fantasy"))).isSome
    ∧ ((Library.init "BPL").addShelf1 (ShelfItem.label "Fantasy")).1.addShelf1
        (ShelfItem.label "Fantasy")
      = (((Library.init "BPL").addShelf1 (ShelfItem.label "Fantasy")).1,
         Signal.duplicateShelf) :=
  ⟨by decide,
   add_duplicate_shelf ((Library.init "BPL").addShelf1 (ShelfItem.label "Fantasy")).1
     (ShelfItem.label "Fantasy") (by decide)⟩

/-- Claim C6: with 0 < available ≤ total, `check_out` then `check_in`
restores the Book exactly, and the total copy count is unchanged at the
intermediate state as well. -/
theorem check_out_check_in_round_trip (b : Book) (h1 : 0 < b.copies)
    (h2 : b.copies ≤ b.maxcopies) :
    (b.check_out.1.check_in).1 = b ∧ b.check_out.1.maxcopies = b.maxcopies := by
  have hne : b.copies ≠ 0 := by omega
  have hco : b.check_out.1 = { b with copies := b.copies - 1 } := by
    simp [Book.check_out, hne]
  have hlt : b.copies - 1 < b.maxcopies := by omega
  refine ⟨?_, by rw [hco]⟩
  rw [hco]
  have hci : ({ b with copies := b.copies - 1 } : Book).check_in.1
      = { b with copies := b.copies - 1 + 1 } := by
    simp [Book.check_in, hlt]
  rw [hci]
  have hc : b.copies - 1 + 1 = b.copies := by omega
  rw [hc]

/-- Witness for C6 at a concrete Book. -/
theorem check_out_check_in_round_trip_witness :
    (0 : Int) < 1 ∧ (1 : Int) ≤ 2 ∧
    (((Book.init "A" "x" 3 "d" 2).check_out.1.check_out.1.check_in).1
        = (Book.init "A" "x" 3 "d" 2).check_out.1 ∧
     (Book.init "A" "x" 3 "d" 2).check_out.1.check_out.1.maxcopies = 2) :=
  ⟨by decide, by decide,
   check_out_check_in_round_trip (Book.init "A" "x" 3 "d" 2).check_out.1
     (by decide) (by decide)⟩

/-- Claim C7 (refuted by the code): `enshelf` looks up the nonexistent
Shelf method `add_book`, so it raises AttributeError instead of adding the
book; `unshelf` passes the Book object where `remove_book` expects a title
string, so it always reports NotFound and removes nothing, while the direct
call with the title does remove the entry. -/
theorem enshelf_unshelf_do_not_delegate (b : Book) (s : Shelf) :
    b.enshelf s = Except.error "AttributeError: add_book" ∧
    b.unshelf s = (s, Signal.notFound) ∧
    ((Shelf.init "Fantasy").addBook1
        (BookItem.book (Book.init "The Scar" "" 0 "" 1))).remove_book
        (PyKey.str "The Scar")
      = ({ name := "Fantasy", books := [] }, Signal.success) := by
  refine ⟨?_, ?_, by decide⟩
  · simp [Book.enshelf, shelfMethodNames]
  · simp [Book.unshelf, Shelf.remove_book, pyKeyMatches]

/-- Claim C8: adding a bare label whose title-cased form is not yet a key
inserts a fresh Book titled with that title-cased label, with one
available and one total copy. -/
theorem add_new_label (s : Shelf) (l : String)
    (h : lookupKey s.books (pyTitle l) = none) :
    lookupKey (s.addBook1 (BookItem.label l)).books (pyTitle l)
      = some (Book.init (pyTitle l) "" 0 "" 1) := by
  have hs : ¬ ((lookupKey s.books (BookItem.key (BookItem.label l))).isSome = true) := by
    simp [BookItem.key, h]
  simp only [Shelf.addBook1, if_neg hs]
  exact lookupKey_append_self s.books (pyTitle l) _ h

/-- Witness for C8: adding the label of a book absent from the shelf. -/
theorem add_new_label_witness :
    lookupKey ((Shelf.init "Fantasy").addBook1 (BookItem.label "a game of thrones")).books
        (pyTitle "a game of thrones")
      = some (Book.init (pyTitle "a game of thrones") "" 0 "" 1) :=
  add_new_label (Shelf.init "Fantasy") "a game of thrones" (by decide)

/-- Claim C9: the constructor accepts copies = 0, yielding available =
total = 0, and a subsequent `check_out` leaves the Book unchanged and
signals OutOfStock. -/
theorem zero_copies_accepted (title author : String) (page_count : Int)
    (desc : String) :
    (Book.init title author page_count desc 0).copies = 0 ∧
    (Book.init title author page_count desc 0).maxcopies = 0 ∧
    (Book.init title author page_count desc 0).check_out
      = (Book.init title author page_count desc 0, Signal.outOfStock) :=
  ⟨rfl, rfl, by simp [Book.check_out, Book.init]⟩

/-- Claim C10: when `add_books` receives a Book instance whose title is
already a key, the stored Book keeps its own metadata and only its two
counts grow by one; the incoming instance (with arbitrary metadata and
copy counts) is discarded, and no entry is added. -/
theorem add_duplicate_book_keeps_stored (s : Shelf) (incoming stored : Book)
    (h : lookupKey s.books incoming.title = some stored) :
    (s.addBook1 (BookItem.book incoming)).books.length = s.books.length ∧
    lookupKey (s.addBook1 (BookItem.book incoming)).books incoming.title
      = some { title := stored.title, author := stored.author,
               page_count := stored.page_count, desc := stored.desc,
               copies := stored.copies + 1, maxcopies := stored.maxcopies + 1 } := by
  have h2 : lookupKey s.books (BookItem.key (BookItem.book incoming)) = some stored := h
  have := add_existing_title s (BookItem.book incoming) stored h2
  exact this

/-- Witness for C10: incoming Book with different metadata and 7 copies;
the stored Book keeps its metadata and gains a single copy. -/
theorem add_duplicate_book_keeps_stored_witness :
    (lookupKey ((Shelf.init "F").addBook1
        (BookItem.book (Book.init "X" "Auth" 5 "D" 3))).books
        (Book.init "X" "Other" 9 "E" 7).title
      = some (Book.init "X" "Auth" 5 "D" 3)) ∧
    ((((Shelf.init "F").addBook1 (BookItem.book (Book.init "X" "Auth" 5 "D" 3))).addBook1
        (BookItem.book (Book.init "X" "Other" 9 "E" 7))).books.length
      = ((Shelf.init "F").addBook1 (BookItem.book (Book.init "X" "Auth" 5 "D" 3))).books.length ∧
     lookupKey (((Shelf.init "F").addBook1
        (BookItem.book (Book.init "X" "Auth" 5 "D" 3))).addBook1
        (BookItem.book (Book.init "X" "Other" 9 "E" 7))).books
        (Book.init "X" "Other" 9 "E" 7).title
      = some { title := "X", author := "Auth", page_count := 5, desc := "D",
               copies := 3 + 1, maxcopies := 3 + 1 }) :=
  ⟨by decide,
   add_duplicate_book_keeps_stored
     ((Shelf.init "F").addBook1 (BookItem.book (Book.init "X" "Auth" 5 "D" 3)))
     (Book.init "X" "Other" 9 "E" 7) (Book.init "X" "Auth" 5 "D" 3) (by decide)⟩

end LibraryModel
